import Mathlib

set_option maxRecDepth 100000

/-!
Verification of the control-plane logic of `drivers/net/liquidio/lio_ethdev.c`
(DPDK liquidio VF ethernet driver).  The C functions are shallowly embedded as
Lean functions over explicit state records; 64-bit unsigned arithmetic is
modelled on `ℕ` with explicit `% 2^64` where the C computation is modular.
-/

namespace LioEthdev

/-! ## Numeric constants

`ENOMEM`, `ENODEV`, `ENOTSUP`, `EINVAL` are the standard errno values used by
the negative return codes in the source. -/

def ENOMEM : Int := 12
def ENODEV : Int := 19
def EINVAL : Int := 22
def ENOTSUP : Int := 95

/-- Modelled from the spec: `LIO_COMPLETION_WORD_INIT` is defined in
`lio_ethdev.h`, which is not under `src/`.  The spec (§4.2, §7) requires the
completion word of a soft command to start in a distinguished "pending" state
distinct from every device status; the driver initialises the final 8 bytes of
the response buffer (which overlay the `status` field of the response structs)
to the all-ones word, so a command that never completes is seen with a nonzero
status. -/
def LIO_COMPLETION_WORD_INIT : ℕ := 2 ^ 64 - 1

/-! ## `lio_hweight64` (lines 125-137)

The SWAR population count.  All C operations are on `uint64_t`; additions are
reduced `% 2^64`, and the initial subtraction `w - ((w >> 1) & 0x5555…)` is
written in its wrap-around form `(w + (2^64 - x)) % 2^64`, which coincides with
the C value for every input (the subtrahend never exceeds `w`, so the C
subtraction never wraps either). -/

def lio_hweight64 (w0 : ℕ) : ℕ :=
  let w := w0 % 2 ^ 64
  let r1 := (w + (2 ^ 64 - ((w >>> 1) &&& 0x5555555555555555))) % 2 ^ 64
  let r2 := ((r1 &&& 0x3333333333333333) + ((r1 >>> 2) &&& 0x3333333333333333)) % 2 ^ 64
  let r3 := ((r2 + (r2 >>> 4)) % 2 ^ 64) &&& 0x0F0F0F0F0F0F0F0F
  let r4 := (r3 + (r3 >>> 8)) % 2 ^ 64
  let r5 := (r4 + (r4 >>> 16)) % 2 ^ 64
  ((r5 + (r5 >>> 32)) % 2 ^ 64) &&& 0x00000000000000FF

/-! ## Specification-side definition of population count

`popcount n` is "the number of set bits of `n`", written with an explicit fuel
so that it is structurally recursive and evaluates inside `decide`. -/

def popcountAux : ℕ → ℕ → ℕ
  | 0, _ => 0
  | fuel + 1, n => if n = 0 then 0 else n % 2 + popcountAux fuel (n / 2)

/-- The number of set bits in the binary representation of `n`. -/
def popcount (n : ℕ) : ℕ := popcountAux n n

/-! ## Byte-level views of the SWAR steps

`f1`/`f2` are the actions of the first two steps of `lio_hweight64` on a
single byte; `bytes8` recomposes a 64-bit word from its eight bytes
(least-significant first). -/

def f1 (x : ℕ) : ℕ := x - ((x / 2) &&& 0x55)

def f2 (x : ℕ) : ℕ := (x &&& 0x33) + ((x / 4) &&& 0x33)

def bytes8 (b0 b1 b2 b3 b4 b5 b6 b7 : ℕ) : ℕ :=
  b0 + 256 * (b1 + 256 * (b2 + 256 * (b3 + 256 * (b4 + 256 * (b5 + 256 * (b6 + 256 * b7))))))

/-! ## Device model

State records for the shallow embedding.  C arrays indexed by queue number are
modelled as total functions `ℕ → _`; pointers that may be NULL are modelled as
`Option`. -/

/-- `struct rte_eth_link` (a 64-bit word holding speed/duplex/status). -/
structure EthLink where
  link_speed : ℕ
  link_duplex : ℕ
  link_status : ℕ
deriving DecidableEq

/-- Modelled from the spec: the numeric values of `ETH_LINK_*`,
`ETH_SPEED_NUM_*` (from `rte_ethdev.h`) and `LIO_LINK_SPEED_10000` (from
`lio_ethdev.h`) live in headers of this repository that are not under `src/`.
The spec (§4.3) fixes the lookup "device code 10000 → 10 Gbps full duplex;
unrecognized → speed unknown, half duplex". -/
def ETH_LINK_DOWN : ℕ := 0
def ETH_LINK_UP : ℕ := 1
def ETH_SPEED_NUM_NONE : ℕ := 0
def ETH_SPEED_NUM_10G : ℕ := 10000
def ETH_LINK_HALF_DUPLEX : ℕ := 0
def ETH_LINK_FULL_DUPLEX : ℕ := 1
def LIO_LINK_SPEED_10000 : ℕ := 10000

/-- Modelled from the spec: bitfield accessors of `union octeon_link_status`
(`lio_ethdev.h`, not under `src/`).  The spec (§3 LinkInfo) requires a packed
64-bit word containing an up/down bit and a 16-bit speed field; the offsets
(speed at bits 24..39, link_up at bit 40) follow the wire layout.  The claims
are parametric in these offsets. -/
def s_link_up (w : ℕ) : ℕ := w / 2 ^ 40 % 2

/-- Speed bitfield of the packed link-status word (see `s_link_up`). -/
def s_speed (w : ℕ) : ℕ := w / 2 ^ 24 % 2 ^ 16

/-- Modelled from the spec: the `s.q_no` bitfield of `union octeon_rxpciq` /
`union octeon_txpciq` (`lio_ethdev.h`, not under `src/`): the low byte of the
64-bit descriptor.  The claims are parametric in this offset. -/
def s_q_no (x : ℕ) : ℕ := x % 256

/-- The `linfo` member of `struct lio_device`. -/
structure LioLinkInfo where
  num_rxpciq : ℕ
  num_txpciq : ℕ
  rxpciq : ℕ → ℕ
  txpciq : ℕ → ℕ
  hw_addr : ℕ
  gmxport : ℕ
  link_status64 : ℕ

/-- The parts of `struct lio_device` the embedded functions touch. -/
structure LioDevice where
  port_configured : Bool
  intf_open : Bool
  nb_rx_queues : ℕ
  nb_tx_queues : ℕ
  linfo : LioLinkInfo
  glist_lock : Option ℕ
  glist_head : Option ℕ
  droq : ℕ → Option ℕ
  instr_queue : ℕ → Option ℕ

/-- The parts of `struct rte_eth_dev` (and its `data`) the driver touches:
requested queue counts, the published link snapshot, the MAC address bytes and
the per-queue software rings (holding the firmware-mapped queue id). -/
structure EthDev where
  nb_rx_queues : ℕ
  nb_tx_queues : ℕ
  dev_link : EthLink
  mac0 : ℕ → ℕ
  rx_queues : ℕ → Option ℕ
  tx_queues : ℕ → Option ℕ

/-- `lio_dev_atomic_write_link_status` (lines 111-123): publishes `link` into
`eth_dev->data->dev_link` with `rte_atomic64_cmpset(dst, *dst, *src)`.  The
expected value is read from `dst` immediately before the compare-and-set, so
in this sequential embedding the operation always succeeds and returns 0. -/
def lio_dev_atomic_write_link_status (eth : EthDev) (link : EthLink) : Int × EthDev :=
  (0, { eth with dev_link := link })

/-- `lio_dev_link_update` (lines 139-180).  `old` is the zero-initialised
local of line 150 (`memset(&old, 0, sizeof(old))`); the source never reads the
previously published link. -/
def lio_dev_link_update (dev : LioDevice) (eth : EthDev) : Int × EthDev :=
  let link1 : EthLink :=
    { link_speed := ETH_SPEED_NUM_NONE, link_duplex := ETH_LINK_HALF_DUPLEX,
      link_status := ETH_LINK_DOWN }
  let old : EthLink := { link_speed := 0, link_duplex := 0, link_status := 0 }
  if s_link_up dev.linfo.link_status64 = 0 then
    let r := lio_dev_atomic_write_link_status eth link1
    if r.1 ≠ 0 then (-1, r.2)
    else if link1.link_status = old.link_status then (-1, r.2)
    else (0, r.2)
  else
    let link2 : EthLink :=
      if s_speed dev.linfo.link_status64 = LIO_LINK_SPEED_10000 then
        { link_speed := ETH_SPEED_NUM_10G, link_duplex := ETH_LINK_FULL_DUPLEX,
          link_status := ETH_LINK_UP }
      else
        { link_speed := ETH_SPEED_NUM_NONE, link_duplex := ETH_LINK_HALF_DUPLEX,
          link_status := ETH_LINK_UP }
    let r := lio_dev_atomic_write_link_status eth link2
    if r.1 ≠ 0 then (-1, r.2)
    else if link2.link_status = old.link_status then (-1, r.2)
    else (0, r.2)

/-- `lio_swap_8B_data` applied to one 64-bit word: reverse its eight bytes
(big-endian wire order ↔ little-endian host order). -/
def swap8B (x : ℕ) : ℕ :=
  (x % 256) * 2 ^ 56 + (x / 2 ^ 8 % 256) * 2 ^ 48 + (x / 2 ^ 16 % 256) * 2 ^ 40 +
  (x / 2 ^ 24 % 256) * 2 ^ 32 + (x / 2 ^ 32 % 256) * 2 ^ 24 + (x / 2 ^ 40 % 256) * 2 ^ 16 +
  (x / 2 ^ 48 % 256) * 2 ^ 8 + (x / 2 ^ 56 % 256)

/-- Outcome of the bounded completion-poll loop
(`while ((*sc->status_word == LIO_COMPLETION_WORD_INIT) && --timeout) …`,
lines 404-407 and 550-554) as observed through the response `status` field:
the driver initialises the last 8 bytes of the response buffer (which overlay
`resp->status`) to `LIO_COMPLETION_WORD_INIT`, so if the device never writes a
response within the budget the status read afterwards is the (nonzero) init
word, otherwise it is the device-written status. -/
def pollStatus (arrives : Bool) (status : ℕ) : ℕ :=
  if arrives then status % 2 ^ 64 else LIO_COMPLETION_WORD_INIT

/-- Environment (device / allocator behaviour) for one
`lio_dev_get_link_status` call. -/
structure LinkEnv where
  sc_alloc_ok : Bool
  send_ok : Bool
  resp_arrives : Bool
  resp_status : ℕ
  link64 : ℕ

/-- `lio_dev_get_link_status` (lines 376-427).  The function returns `void`;
the embedding returns the (device, eth_dev) state after the call.  `env.link64`
is the raw (wire-order) `resp->link_info.link` word. -/
def lio_dev_get_link_status (env : LinkEnv) (eth : EthDev) (dev : LioDevice) :
    LioDevice × EthDev :=
  if dev.intf_open = false then (dev, eth)
  else if env.sc_alloc_ok = false then (dev, eth)
  else if env.send_ok = false then (dev, eth)
  else if pollStatus env.resp_arrives env.resp_status ≠ 0 then (dev, eth)
  else
    let ls := swap8B env.link64
    if dev.linfo.link_status64 ≠ ls then
      let dev2 := { dev with linfo := { dev.linfo with link_status64 := ls } }
      let eth2 := (lio_dev_link_update dev2 eth).2
      (dev2, eth2)
    else (dev, eth)

/-- The published snapshot derived from a packed link-status word, following
the spec's lookup table (§4.3).  Spec-side definition, to be compared with
what `lio_dev_link_update` publishes. -/
def publishedLinkOf (w : ℕ) : EthLink :=
  if s_link_up w = 0 then
    { link_speed := ETH_SPEED_NUM_NONE, link_duplex := ETH_LINK_HALF_DUPLEX,
      link_status := ETH_LINK_DOWN }
  else if s_speed w = LIO_LINK_SPEED_10000 then
    { link_speed := ETH_SPEED_NUM_10G, link_duplex := ETH_LINK_FULL_DUPLEX,
      link_status := ETH_LINK_UP }
  else
    { link_speed := ETH_SPEED_NUM_NONE, link_duplex := ETH_LINK_HALF_DUPLEX,
      link_status := ETH_LINK_UP }

/-- Environment for one `lio_dev_configure` call: allocator and device
behaviour, plus the raw (wire-order) fields of the `if_cfg` response. -/
structure CfgEnv where
  sc_alloc_ok : Bool
  send_ok : Bool
  resp_arrives : Bool
  resp_status : ℕ
  iqmask : ℕ
  oqmask : ℕ
  rxpciq : ℕ → ℕ
  txpciq : ℕ → ℕ
  hw_addr : ℕ
  gmxport : ℕ
  link64 : ℕ
  glist_lock_ok : Bool
  glist_head_ok : Bool

/-- Result of `lio_dev_configure`: the return code, the final device and
eth_dev state, whether the soft command allocated by this call is still
outstanding (allocated but never freed) at return, and whether the bootstrap
instruction queue 0 was freed (`lio_free_instr_queue0`) during the call. -/
structure CfgResult where
  ret : Int
  dev : LioDevice
  eth : EthDev
  sc_outstanding : Bool
  iq0_freed : Bool

/-- The `for` loops of lines 586-598: copy `src` entries `0 … n-1` into `dst`
one at a time. -/
def copyLoop (dst src : ℕ → ℕ) : ℕ → ℕ → ℕ
  | 0 => dst
  | n + 1 => Function.update (copyLoop dst src n) n (src n)

/-- Byte `i` of the MAC address extracted from the (wire-order) `hw_addr`
word: `*((uint8_t *)&hw_addr + 2 + i)` on a little-endian host (line 608). -/
def macByte (hw i : ℕ) : ℕ := hw / 2 ^ (8 * (2 + i)) % 256

/-- `lio_dev_configure` (lines 486-651), embedded step for step.
Error codes: `-ENOTSUP` for a queue-count re-configuration attempt, `-ENOMEM`
for the three allocation failures (soft command, `glist_lock`, `glist_head`),
`-ENODEV` from the `nic_config_fail` label.  The external register operations
`disable_io_queues`/`setup_device_regs` (lines 635-638) touch no modelled
state. -/
def lio_dev_configure (env : CfgEnv) (eth : EthDev) (dev : LioDevice) : CfgResult :=
  if dev.port_configured then
    if dev.nb_rx_queues ≠ eth.nb_rx_queues ∨ dev.nb_tx_queues ≠ eth.nb_tx_queues then
      { ret := -ENOTSUP, dev := dev, eth := eth, sc_outstanding := false, iq0_freed := false }
    else
      { ret := 0, dev := dev, eth := eth, sc_outstanding := false, iq0_freed := false }
  else
    let dev1 := { dev with nb_rx_queues := eth.nb_rx_queues, nb_tx_queues := eth.nb_tx_queues }
    if env.sc_alloc_ok = false then
      { ret := -ENOMEM, dev := dev1, eth := eth, sc_outstanding := false, iq0_freed := false }
    else if env.send_ok = false then
      -- nic_config_fail: lio_free_soft_command + lio_free_instr_queue0
      { ret := -ENODEV, dev := dev1, eth := eth, sc_outstanding := false, iq0_freed := true }
    else if pollStatus env.resp_arrives env.resp_status ≠ 0 then
      { ret := -ENODEV, dev := dev1, eth := eth, sc_outstanding := false, iq0_freed := true }
    else
      let num_iqueues := lio_hweight64 (swap8B env.iqmask)
      let num_oqueues := lio_hweight64 (swap8B env.oqmask)
      if num_iqueues = 0 ∨ num_oqueues = 0 then
        { ret := -ENODEV, dev := dev1, eth := eth, sc_outstanding := false, iq0_freed := true }
      else
        let linfo1 :=
          { dev1.linfo with
            num_rxpciq := num_oqueues
            num_txpciq := num_iqueues
            rxpciq := copyLoop dev1.linfo.rxpciq (fun i => swap8B (env.rxpciq i)) num_oqueues
            txpciq := copyLoop dev1.linfo.txpciq (fun i => swap8B (env.txpciq i)) num_iqueues
            gmxport := swap8B env.gmxport
            link_status64 := swap8B env.link64
            -- hw_addr is byte-swapped once with the whole cfg_info (line 562)
            -- and then a second time in place (line 606)
            hw_addr := swap8B (swap8B env.hw_addr) }
        let dev2 := { dev1 with linfo := linfo1 }
        let eth1 :=
          { eth with mac0 := fun i => if i < 6 then macByte linfo1.hw_addr i else eth.mac0 i }
        if env.glist_lock_ok = false then
          -- returns -ENOMEM directly: neither the soft command nor iq0 is freed
          { ret := -ENOMEM, dev := dev2, eth := eth1, sc_outstanding := true, iq0_freed := false }
        else
          let dev3 := { dev2 with glist_lock := some num_iqueues }
          if env.glist_head_ok = false then
            -- frees glist_lock only, then returns -ENOMEM
            { ret := -ENOMEM, dev := { dev3 with glist_lock := none }, eth := eth1,
              sc_outstanding := true, iq0_freed := false }
          else
            let dev4 := { dev3 with glist_head := some num_iqueues }
            let eth2 := (lio_dev_link_update dev4 eth1).2
            let dev5 := { dev4 with port_configured := true }
            { ret := 0, dev := dev5, eth := eth2, sc_outstanding := false, iq0_freed := true }

/-- Tests whether an existing queue would be re-configured with a different
descriptor count (lines 226-232 / 313-319). -/
def reconfMismatch (q : Option ℕ) (descs : ℕ) : Bool :=
  match q with
  | some mc => descs != mc
  | none => false

/-- Environment for `lio_dev_rx_queue_setup`: result of the external
`lio_setup_droq` (lio_rxtx.c, not under `src/`). -/
structure RxqEnv where
  setup_droq_ok : Bool

/-- `lio_dev_rx_queue_setup` (lines 206-246). -/
def lio_dev_rx_queue_setup (env : RxqEnv) (eth : EthDev) (dev : LioDevice)
    (q_no num_rx_descs : ℕ) : Int × LioDevice × EthDev :=
  if dev.nb_rx_queues ≤ q_no then (-EINVAL, dev, eth)
  else
    let fw_mapped_oq := s_q_no (dev.linfo.rxpciq q_no)
    if reconfMismatch (dev.droq fw_mapped_oq) num_rx_descs then (-ENOTSUP, dev, eth)
    else if env.setup_droq_ok = false then (-1, dev, eth)
    else
      let dev2 := { dev with droq := Function.update dev.droq fw_mapped_oq (some num_rx_descs) }
      let eth2 := { eth with rx_queues := Function.update eth.rx_queues q_no (some fw_mapped_oq) }
      (0, dev2, eth2)

/-- Environment for `lio_dev_tx_queue_setup`: return values of the external
`lio_setup_iq` and `lio_setup_sglists` (0 on success). -/
structure TxqEnv where
  setup_iq_res : Int
  setup_sgl_res : Int

/-- `lio_dev_tx_queue_setup` (lines 297-341).  Note the source reads
`linfo.txpciq[q_no]` (line 303) before the bounds check (line 306); the read
is modelled (total function), the bounds check still precedes every state
change. -/
def lio_dev_tx_queue_setup (env : TxqEnv) (eth : EthDev) (dev : LioDevice)
    (q_no num_tx_descs : ℕ) : Int × LioDevice × EthDev :=
  let fw_mapped_iq := s_q_no (dev.linfo.txpciq q_no)
  if dev.nb_tx_queues ≤ q_no then (-EINVAL, dev, eth)
  else if reconfMismatch (dev.instr_queue fw_mapped_iq) num_tx_descs then (-ENOTSUP, dev, eth)
  else if env.setup_iq_res ≠ 0 then (env.setup_iq_res, dev, eth)
  else
    let dev2 :=
      { dev with instr_queue := Function.update dev.instr_queue fw_mapped_iq (some num_tx_descs) }
    if env.setup_sgl_res ≠ 0 then
      (env.setup_sgl_res,
        { dev2 with instr_queue := Function.update dev2.instr_queue fw_mapped_iq none }, eth)
    else
      (0, dev2, { eth with tx_queues := Function.update eth.tx_queues q_no (some fw_mapped_iq) })

/-! ## Control-command submission (C8) -/

/-- A bounded instruction-queue ring: capacity and number of in-flight slots. -/
structure IQ where
  capacity : ℕ
  pending : ℕ
deriving DecidableEq

/-- `lio_flush_iq`: reclaim the slots the device has consumed (`gain` of
them, chosen by the environment). -/
def lio_flush_iq (gain : ℕ) (q : IQ) : IQ := { q with pending := q.pending - gain }

/-- The queue primitive: enqueue-if-space, failing (not blocking) when the
ring is full. -/
def tryEnqueue (q : IQ) : Option IQ :=
  if q.pending < q.capacity then some { q with pending := q.pending + 1 } else none

/-- Trace of one submission attempt: whether it failed, the final ring state,
and how many enqueue attempts / in-submit flushes were made. -/
structure SubmitTrace where
  failed : Bool
  q : IQ
  attempts : ℕ
  flushes : ℕ
deriving DecidableEq

/-- Modelled from the spec: `lio_send_ctrl_pkt` lives in `lio_rxtx.c`, which
is not under `src/`.  Spec §4.2: "build descriptor, call Queue Primitive
`tryEnqueue`; on failure, call `flush()` once and retry exactly once before
reporting `SubmitFailed`". -/
def lio_send_ctrl_pkt (gain : ℕ) (q : IQ) : SubmitTrace :=
  match tryEnqueue q with
  | some q2 => { failed := false, q := q2, attempts := 1, flushes := 0 }
  | none =>
    let q2 := lio_flush_iq gain q
    match tryEnqueue q2 with
    | some q3 => { failed := false, q := q3, attempts := 2, flushes := 1 }
    | none => { failed := true, q := q2, attempts := 2, flushes := 1 }

/-- Environment for one `lio_send_rx_ctrl_cmd` call: how many slots each
flush reclaims, and whether the device sets `ctrl_cmd.cond` within the
`LIO_MAX_CMD_TIMEOUT` poll budget. -/
structure CtrlEnv where
  pre_flush_gain : ℕ
  submit_flush_gain : ℕ
  cond_arrives : Bool

/-- `lio_wait_for_ctrl_cmd` (lines 45-57): returns `!timeout`, i.e. `true`
iff the completion flag was never set within the bounded poll budget. -/
def lio_wait_for_ctrl_cmd (env : CtrlEnv) : Bool := !env.cond_arrives

/-- `lio_send_rx_ctrl_cmd` (lines 64-97): pre-emptive flush (line 74, "flush
added to prevent cmd failure incase the queue is full"), build the RX control
packet, send it, then wait for completion. -/
def lio_send_rx_ctrl_cmd (env : CtrlEnv) (q : IQ) : Int × IQ :=
  let q1 := lio_flush_iq env.pre_flush_gain q
  let tr := lio_send_ctrl_pkt env.submit_flush_gain q1
  if tr.failed then (-1, tr.q)
  else if lio_wait_for_ctrl_cmd env then (-1, tr.q)
  else (0, tr.q)

/-! ## Concrete fixtures used to evaluate the model on explicit inputs -/

def zeroLinfo : LioLinkInfo :=
  { num_rxpciq := 0, num_txpciq := 0, rxpciq := fun _ => 0, txpciq := fun _ => 0,
    hw_addr := 0, gmxport := 0, link_status64 := 0 }

/-- A freshly attached, unconfigured device. -/
def baseDev : LioDevice :=
  { port_configured := false, intf_open := false, nb_rx_queues := 0, nb_tx_queues := 0,
    linfo := zeroLinfo, glist_lock := none, glist_head := none,
    droq := fun _ => none, instr_queue := fun _ => none }

/-- A device that has already completed configuration with 4 RX / 4 TX queues. -/
def cfgdDev : LioDevice := { baseDev with port_configured := true, nb_rx_queues := 4, nb_tx_queues := 4 }

/-- A device with the interface open (link polling enabled). -/
def openDev : LioDevice := { baseDev with intf_open := true }

/-- Packed link-status word: link up, device speed code 10000. -/
def upLinkWord : ℕ := 2 ^ 40 + 10000 * 2 ^ 24

/-- Packed link-status word: link up, unrecognized device speed code 40000. -/
def oddLinkWord : ℕ := 2 ^ 40 + 40000 * 2 ^ 24

/-- A device whose cached link word says up / 10 Gbps. -/
def upDev : LioDevice := { baseDev with linfo := { zeroLinfo with link_status64 := upLinkWord } }

/-- A device whose cached link word says up with an unrecognized speed code. -/
def oddDev : LioDevice := { baseDev with linfo := { zeroLinfo with link_status64 := oddLinkWord } }

/-- An `rte_eth_dev` requesting 4 RX / 4 TX queues. -/
def baseEth : EthDev :=
  { nb_rx_queues := 4, nb_tx_queues := 4,
    dev_link := { link_speed := 0, link_duplex := 0, link_status := 0 },
    mac0 := fun _ => 0, rx_queues := fun _ => none, tx_queues := fun _ => none }

/-- An `rte_eth_dev` requesting 2 RX / 2 TX queues. -/
def smallEth : EthDev := { baseEth with nb_rx_queues := 2, nb_tx_queues := 2 }

/-- Configure environment where everything succeeds and the device grants
mask `0xF` (wire order: the low byte of the 64-bit big-endian word) for both
queue directions. -/
def cfgEnvOk : CfgEnv :=
  { sc_alloc_ok := true, send_ok := true, resp_arrives := true, resp_status := 0,
    iqmask := 0x0F00000000000000, oqmask := 0x0F00000000000000,
    rxpciq := fun i => i, txpciq := fun i => i, hw_addr := 0, gmxport := 0, link64 := 0,
    glist_lock_ok := true, glist_head_ok := true }

/-- Same as `cfgEnvOk` but the returned input-queue mask is empty. -/
def cfgEnvBadMask : CfgEnv := { cfgEnvOk with iqmask := 0 }

/-- Same as `cfgEnvOk` but the `glist_lock` allocation fails. -/
def cfgEnvLockFail : CfgEnv := { cfgEnvOk with glist_lock_ok := false }

/-- Same as `cfgEnvOk` but the granted input-queue mask is `0b00000101`
(2 bits set) while 4 queues were requested. -/
def cfgEnvGrant2 : CfgEnv := { cfgEnvOk with iqmask := 0x0500000000000000 }

/-- Link-status environment: command round-trips with status 0 and a link
word equal (after byte swap) to the cached all-zero word. -/
def linkEnvSame : LinkEnv :=
  { sc_alloc_ok := true, send_ok := true, resp_arrives := true, resp_status := 0, link64 := 0 }

/-- Link-status environment: command round-trips with status 0 and a link
word that byte-swaps to `upLinkWord` (different from the cached zero). -/
def linkEnvDiff : LinkEnv := { linkEnvSame with link64 := swap8B upLinkWord }

/-- Link-status environment where the soft-command submit fails. -/
def linkEnvSendFail : LinkEnv := { linkEnvSame with send_ok := false }

/-- Link-status environment where the device never completes the command. -/
def linkEnvTimeout : LinkEnv := { linkEnvSame with resp_arrives := false }

/-- A full one-slot instruction queue. -/
def fullIQ : IQ := { capacity := 1, pending := 1 }

/-- Control-command environment where no flush ever reclaims a slot. -/
def ctrlEnvStuck : CtrlEnv := { pre_flush_gain := 0, submit_flush_gain := 0, cond_arrives := true }

theorem popcountAux_congr (n : ℕ) : ∀ f g : ℕ, n ≤ f → n ≤ g →
    popcountAux f n = popcountAux g n := by
  induction n using Nat.strong_induction_on with
  | _ n ih =>
    intro f g hf hg
    match f, g with
    | 0, 0 => rfl
    | 0, g + 1 =>
      have hn : n = 0 := Nat.le_zero.mp hf
      subst hn; simp [popcountAux]
    | f + 1, 0 =>
      have hn : n = 0 := Nat.le_zero.mp hg
      subst hn; simp [popcountAux]
    | f + 1, g + 1 =>
      by_cases h0 : n = 0
      · subst h0; simp [popcountAux]
      · simp only [popcountAux, if_neg h0]
        have hlt : n / 2 < n := Nat.div_lt_self (Nat.pos_of_ne_zero h0) (by omega)
        have := ih (n / 2) hlt f g (by omega) (by omega)
        omega

theorem popcount_eq (n : ℕ) : popcount n = n % 2 + popcount (n / 2) := by
  by_cases h0 : n = 0
  · subst h0; rfl
  · show popcountAux n n = _
    match n, h0 with
    | n + 1, _ =>
      simp only [popcountAux, if_neg (by omega : ¬ n + 1 = 0)]
      have h := popcountAux_congr ((n + 1) / 2) n ((n + 1) / 2) (by omega) (le_refl _)
      unfold popcount
      omega

theorem popcount_add_pow_mul (k a b : ℕ) (ha : a < 2 ^ k) :
    popcount (a + 2 ^ k * b) = popcount a + popcount b := by
  induction k generalizing a b with
  | zero =>
    have : a = 0 := by omega
    subst this
    simp [show popcount 0 = 0 from rfl]
  | succ k ih =>
    rw [pow_succ] at ha ⊢
    have e : 2 ^ k * 2 * b = 2 * (2 ^ k * b) := by ring
    rw [e]
    have h1 : (a + 2 * (2 ^ k * b)) % 2 = a % 2 := Nat.add_mul_mod_self_left a 2 _
    have h2 : (a + 2 * (2 ^ k * b)) / 2 = a / 2 + 2 ^ k * b :=
      Nat.add_mul_div_left a _ (by omega)
    rw [popcount_eq (a + 2 * (2 ^ k * b)), h1, h2, ih (a / 2) b (by omega),
      popcount_eq a]
    omega

/-! ## General bitwise split lemmas -/

theorem land_mod_two_pow (x y k : ℕ) :
    (x &&& y) % 2 ^ k = (x % 2 ^ k) &&& (y % 2 ^ k) := by
  apply Nat.eq_of_testBit_eq
  intro i
  simp only [Nat.testBit_mod_two_pow, Nat.testBit_and]
  cases h : decide (i < k) <;> simp

theorem land_div_two_pow (x y k : ℕ) :
    (x &&& y) / 2 ^ k = (x / 2 ^ k) &&& (y / 2 ^ k) := by
  rw [← Nat.shiftRight_eq_div_pow, ← Nat.shiftRight_eq_div_pow,
    ← Nat.shiftRight_eq_div_pow]
  apply Nat.eq_of_testBit_eq
  intro i
  simp [Nat.testBit_shiftRight, Nat.testBit_and]

/-- Splitting `&&&` at a byte boundary: if the low bytes are in range, the
bitwise and of `a + 256·A` and `b + 256·B` splits into byte and tail parts. -/
theorem land_split (a A b B : ℕ) (ha : a < 256) (hb : b < 256) :
    (a + 256 * A) &&& (b + 256 * B) = (a &&& b) + 256 * (A &&& B) := by
  have hm := land_mod_two_pow (a + 256 * A) (b + 256 * B) 8
  have hd := land_div_two_pow (a + 256 * A) (b + 256 * B) 8
  have e1 : (a + 256 * A) % 2 ^ 8 = a := by omega
  have e2 : (b + 256 * B) % 2 ^ 8 = b := by omega
  have e3 : (a + 256 * A) / 2 ^ 8 = A := by omega
  have e4 : (b + 256 * B) / 2 ^ 8 = B := by omega
  rw [e1, e2] at hm
  rw [e3, e4] at hd
  omega

theorem land_255 (x : ℕ) : x &&& 0xFF = x % 256 := by
  have h : (0xFF : ℕ) = 2 ^ 8 - 1 := by norm_num
  rw [h, Nat.and_pow_two_sub_one_eq_mod]

/-! ## Byte-level facts about the SWAR steps, by exhaustive check -/

theorem byte_step1_spill : ∀ x < 256, ∀ e < 2,
    ((x / 2 + 128 * e) &&& 0x55) = (x / 2) &&& 0x55 := by decide

theorem byte_f1_lt : ∀ x < 256, ((x / 2) &&& 0x55) ≤ x ∧ f1 x < 256 := by decide

theorem byte_step2_spill : ∀ x < 256, ∀ e < 4,
    ((x / 4 + 64 * e) &&& 0x33) = (x / 4) &&& 0x33 := by decide

theorem byte_f2f1_bounds : ∀ x < 256, f2 (f1 x) ≤ 0x66 ∧ f2 (f1 x) % 16 ≤ 6 := by decide

theorem byte_step3 : ∀ b < 256, ∀ z < 7,
    ((f2 (f1 b) + f2 (f1 b) / 16 + 16 * z) &&& 0x0F) = popcount b := by decide

theorem byte_popcount_le : ∀ b < 256, popcount b ≤ 8 := by decide

/-! ## Shift-to-division bridges -/

theorem shr1 (x : ℕ) : x >>> 1 = x / 2 := by
  rw [Nat.shiftRight_eq_div_pow]

theorem shr2 (x : ℕ) : x >>> 2 = x / 4 := by
  rw [Nat.shiftRight_eq_div_pow]

theorem shr4 (x : ℕ) : x >>> 4 = x / 16 := by
  rw [Nat.shiftRight_eq_div_pow]

/-! ## Byte decompositions of the 64-bit operations -/

theorem div2_bytes8 (b0 b1 b2 b3 b4 b5 b6 b7 : ℕ)
    (h0 : b0 < 256) (h1 : b1 < 256) (h2 : b2 < 256) (h3 : b3 < 256)
    (h4 : b4 < 256) (h5 : b5 < 256) (h6 : b6 < 256) (h7 : b7 < 256) :
    bytes8 b0 b1 b2 b3 b4 b5 b6 b7 / 2 =
    bytes8 (b0 / 2 + 128 * (b1 % 2)) (b1 / 2 + 128 * (b2 % 2)) (b2 / 2 + 128 * (b3 % 2))
      (b3 / 2 + 128 * (b4 % 2)) (b4 / 2 + 128 * (b5 % 2)) (b5 / 2 + 128 * (b6 % 2))
      (b6 / 2 + 128 * (b7 % 2)) (b7 / 2) := by
  unfold bytes8
  omega

theorem div4_bytes8 (b0 b1 b2 b3 b4 b5 b6 b7 : ℕ)
    (h0 : b0 < 256) (h1 : b1 < 256) (h2 : b2 < 256) (h3 : b3 < 256)
    (h4 : b4 < 256) (h5 : b5 < 256) (h6 : b6 < 256) (h7 : b7 < 256) :
    bytes8 b0 b1 b2 b3 b4 b5 b6 b7 / 4 =
    bytes8 (b0 / 4 + 64 * (b1 % 4)) (b1 / 4 + 64 * (b2 % 4)) (b2 / 4 + 64 * (b3 % 4))
      (b3 / 4 + 64 * (b4 % 4)) (b4 / 4 + 64 * (b5 % 4)) (b5 / 4 + 64 * (b6 % 4))
      (b6 / 4 + 64 * (b7 % 4)) (b7 / 4) := by
  unfold bytes8
  omega

theorem div16_bytes8 (b0 b1 b2 b3 b4 b5 b6 b7 : ℕ)
    (h0 : b0 < 256) (h1 : b1 < 256) (h2 : b2 < 256) (h3 : b3 < 256)
    (h4 : b4 < 256) (h5 : b5 < 256) (h6 : b6 < 256) (h7 : b7 < 256) :
    bytes8 b0 b1 b2 b3 b4 b5 b6 b7 / 16 =
    bytes8 (b0 / 16 + 16 * (b1 % 16)) (b1 / 16 + 16 * (b2 % 16)) (b2 / 16 + 16 * (b3 % 16))
      (b3 / 16 + 16 * (b4 % 16)) (b4 / 16 + 16 * (b5 % 16)) (b5 / 16 + 16 * (b6 % 16))
      (b6 / 16 + 16 * (b7 % 16)) (b7 / 16) := by
  unfold bytes8
  omega

theorem sub_bytes8 (b0 b1 b2 b3 b4 b5 b6 b7 t0 t1 t2 t3 t4 t5 t6 t7 : ℕ)
    (h0 : t0 ≤ b0) (h1 : t1 ≤ b1) (h2 : t2 ≤ b2) (h3 : t3 ≤ b3)
    (h4 : t4 ≤ b4) (h5 : t5 ≤ b5) (h6 : t6 ≤ b6) (h7 : t7 ≤ b7) :
    bytes8 b0 b1 b2 b3 b4 b5 b6 b7 - bytes8 t0 t1 t2 t3 t4 t5 t6 t7 =
    bytes8 (b0 - t0) (b1 - t1) (b2 - t2) (b3 - t3) (b4 - t4) (b5 - t5) (b6 - t6) (b7 - t7) := by
  unfold bytes8
  omega

theorem tail1_bytes (p0 p1 p2 p3 p4 p5 p6 p7 : ℕ)
    (h0 : p0 ≤ 8) (h1 : p1 ≤ 8) (h2 : p2 ≤ 8) (h3 : p3 ≤ 8)
    (h4 : p4 ≤ 8) (h5 : p5 ≤ 8) (h6 : p6 ≤ 8) (h7 : p7 ≤ 8) :
    bytes8 p0 p1 p2 p3 p4 p5 p6 p7 + bytes8 p0 p1 p2 p3 p4 p5 p6 p7 / 2 ^ 8 =
    bytes8 (p0 + p1) (p1 + p2) (p2 + p3) (p3 + p4) (p4 + p5) (p5 + p6) (p6 + p7) p7 := by
  unfold bytes8
  omega

theorem tail2_bytes (d0 d1 d2 d3 d4 d5 d6 d7 : ℕ)
    (h0 : d0 ≤ 16) (h1 : d1 ≤ 16) (h2 : d2 ≤ 16) (h3 : d3 ≤ 16)
    (h4 : d4 ≤ 16) (h5 : d5 ≤ 16) (h6 : d6 ≤ 16) (h7 : d7 ≤ 16) :
    bytes8 d0 d1 d2 d3 d4 d5 d6 d7 + bytes8 d0 d1 d2 d3 d4 d5 d6 d7 / 2 ^ 16 =
    bytes8 (d0 + d2) (d1 + d3) (d2 + d4) (d3 + d5) (d4 + d6) (d5 + d7) d6 d7 := by
  unfold bytes8
  omega

theorem tail3_bytes (e0 e1 e2 e3 e4 e5 e6 e7 : ℕ)
    (h0 : e0 ≤ 32) (h1 : e1 ≤ 32) (h2 : e2 ≤ 32) (h3 : e3 ≤ 32)
    (h4 : e4 ≤ 32) (h5 : e5 ≤ 32) (h6 : e6 ≤ 32) (h7 : e7 ≤ 32) :
    (bytes8 e0 e1 e2 e3 e4 e5 e6 e7 + bytes8 e0 e1 e2 e3 e4 e5 e6 e7 / 2 ^ 32) % 256 =
    e0 + e4 := by
  have hdiv : bytes8 e0 e1 e2 e3 e4 e5 e6 e7 / 2 ^ 32 =
      e4 + 256 * (e5 + 256 * (e6 + 256 * e7)) := by
    unfold bytes8
    omega
  rw [hdiv]
  unfold bytes8
  omega

/-! ## The three byte-periodic masks, split bytewise -/

theorem land_mask55 (c0 c1 c2 c3 c4 c5 c6 c7 : ℕ)
    (h0 : c0 < 256) (h1 : c1 < 256) (h2 : c2 < 256) (h3 : c3 < 256)
    (h4 : c4 < 256) (h5 : c5 < 256) (h6 : c6 < 256) :
    bytes8 c0 c1 c2 c3 c4 c5 c6 c7 &&& 0x5555555555555555 =
    bytes8 (c0 &&& 0x55) (c1 &&& 0x55) (c2 &&& 0x55) (c3 &&& 0x55) (c4 &&& 0x55)
      (c5 &&& 0x55) (c6 &&& 0x55) (c7 &&& 0x55) := by
  have hm : (0x5555555555555555 : ℕ) =
      0x55 + 256 * (0x55 + 256 * (0x55 + 256 * (0x55 + 256 * (0x55 + 256 *
        (0x55 + 256 * (0x55 + 256 * 0x55)))))) := by norm_num
  unfold bytes8
  rw [hm, land_split _ _ _ _ h0 (by norm_num), land_split _ _ _ _ h1 (by norm_num),
    land_split _ _ _ _ h2 (by norm_num), land_split _ _ _ _ h3 (by norm_num),
    land_split _ _ _ _ h4 (by norm_num), land_split _ _ _ _ h5 (by norm_num),
    land_split _ _ _ _ h6 (by norm_num)]

theorem land_mask33 (c0 c1 c2 c3 c4 c5 c6 c7 : ℕ)
    (h0 : c0 < 256) (h1 : c1 < 256) (h2 : c2 < 256) (h3 : c3 < 256)
    (h4 : c4 < 256) (h5 : c5 < 256) (h6 : c6 < 256) :
    bytes8 c0 c1 c2 c3 c4 c5 c6 c7 &&& 0x3333333333333333 =
    bytes8 (c0 &&& 0x33) (c1 &&& 0x33) (c2 &&& 0x33) (c3 &&& 0x33) (c4 &&& 0x33)
      (c5 &&& 0x33) (c6 &&& 0x33) (c7 &&& 0x33) := by
  have hm : (0x3333333333333333 : ℕ) =
      0x33 + 256 * (0x33 + 256 * (0x33 + 256 * (0x33 + 256 * (0x33 + 256 *
        (0x33 + 256 * (0x33 + 256 * 0x33)))))) := by norm_num
  unfold bytes8
  rw [hm, land_split _ _ _ _ h0 (by norm_num), land_split _ _ _ _ h1 (by norm_num),
    land_split _ _ _ _ h2 (by norm_num), land_split _ _ _ _ h3 (by norm_num),
    land_split _ _ _ _ h4 (by norm_num), land_split _ _ _ _ h5 (by norm_num),
    land_split _ _ _ _ h6 (by norm_num)]

theorem land_mask0F (c0 c1 c2 c3 c4 c5 c6 c7 : ℕ)
    (h0 : c0 < 256) (h1 : c1 < 256) (h2 : c2 < 256) (h3 : c3 < 256)
    (h4 : c4 < 256) (h5 : c5 < 256) (h6 : c6 < 256) :
    bytes8 c0 c1 c2 c3 c4 c5 c6 c7 &&& 0x0F0F0F0F0F0F0F0F =
    bytes8 (c0 &&& 0x0F) (c1 &&& 0x0F) (c2 &&& 0x0F) (c3 &&& 0x0F) (c4 &&& 0x0F)
      (c5 &&& 0x0F) (c6 &&& 0x0F) (c7 &&& 0x0F) := by
  have hm : (0x0F0F0F0F0F0F0F0F : ℕ) =
      0x0F + 256 * (0x0F + 256 * (0x0F + 256 * (0x0F + 256 * (0x0F + 256 *
        (0x0F + 256 * (0x0F + 256 * 0x0F)))))) := by norm_num
  unfold bytes8
  rw [hm, land_split _ _ _ _ h0 (by norm_num), land_split _ _ _ _ h1 (by norm_num),
    land_split _ _ _ _ h2 (by norm_num), land_split _ _ _ _ h3 (by norm_num),
    land_split _ _ _ _ h4 (by norm_num), land_split _ _ _ _ h5 (by norm_num),
    land_split _ _ _ _ h6 (by norm_num)]

/-! ## The three SWAR steps on an eight-byte word -/

theorem step1_bytes (b0 b1 b2 b3 b4 b5 b6 b7 : ℕ)
    (h0 : b0 < 256) (h1 : b1 < 256) (h2 : b2 < 256) (h3 : b3 < 256)
    (h4 : b4 < 256) (h5 : b5 < 256) (h6 : b6 < 256) (h7 : b7 < 256) :
    bytes8 b0 b1 b2 b3 b4 b5 b6 b7 -
      ((bytes8 b0 b1 b2 b3 b4 b5 b6 b7 / 2) &&& 0x5555555555555555) =
    bytes8 (f1 b0) (f1 b1) (f1 b2) (f1 b3) (f1 b4) (f1 b5) (f1 b6) (f1 b7) := by
  rw [div2_bytes8 b0 b1 b2 b3 b4 b5 b6 b7 h0 h1 h2 h3 h4 h5 h6 h7]
  rw [land_mask55 _ _ _ _ _ _ _ _ (by omega) (by omega) (by omega) (by omega) (by omega)
    (by omega) (by omega)]
  rw [byte_step1_spill b0 h0 (b1 % 2) (by omega), byte_step1_spill b1 h1 (b2 % 2) (by omega),
    byte_step1_spill b2 h2 (b3 % 2) (by omega), byte_step1_spill b3 h3 (b4 % 2) (by omega),
    byte_step1_spill b4 h4 (b5 % 2) (by omega), byte_step1_spill b5 h5 (b6 % 2) (by omega),
    byte_step1_spill b6 h6 (b7 % 2) (by omega)]
  unfold f1
  rw [sub_bytes8 b0 b1 b2 b3 b4 b5 b6 b7 _ _ _ _ _ _ _ _
    (byte_f1_lt b0 h0).1 (byte_f1_lt b1 h1).1 (byte_f1_lt b2 h2).1 (byte_f1_lt b3 h3).1
    (byte_f1_lt b4 h4).1 (byte_f1_lt b5 h5).1 (byte_f1_lt b6 h6).1 (byte_f1_lt b7 h7).1]

theorem step2_bytes (a0 a1 a2 a3 a4 a5 a6 a7 : ℕ)
    (h0 : a0 < 256) (h1 : a1 < 256) (h2 : a2 < 256) (h3 : a3 < 256)
    (h4 : a4 < 256) (h5 : a5 < 256) (h6 : a6 < 256) (h7 : a7 < 256) :
    (bytes8 a0 a1 a2 a3 a4 a5 a6 a7 &&& 0x3333333333333333) +
      ((bytes8 a0 a1 a2 a3 a4 a5 a6 a7 / 4) &&& 0x3333333333333333) =
    bytes8 (f2 a0) (f2 a1) (f2 a2) (f2 a3) (f2 a4) (f2 a5) (f2 a6) (f2 a7) := by
  rw [land_mask33 a0 a1 a2 a3 a4 a5 a6 a7 h0 h1 h2 h3 h4 h5 h6]
  rw [div4_bytes8 a0 a1 a2 a3 a4 a5 a6 a7 h0 h1 h2 h3 h4 h5 h6 h7]
  rw [land_mask33 _ _ _ _ _ _ _ _ (by omega) (by omega) (by omega) (by omega) (by omega)
    (by omega) (by omega)]
  rw [byte_step2_spill a0 h0 (a1 % 4) (by omega), byte_step2_spill a1 h1 (a2 % 4) (by omega),
    byte_step2_spill a2 h2 (a3 % 4) (by omega), byte_step2_spill a3 h3 (a4 % 4) (by omega),
    byte_step2_spill a4 h4 (a5 % 4) (by omega), byte_step2_spill a5 h5 (a6 % 4) (by omega),
    byte_step2_spill a6 h6 (a7 % 4) (by omega)]
  unfold bytes8 f2
  ring

theorem step3_bytes (b0 b1 b2 b3 b4 b5 b6 b7 : ℕ)
    (h0 : b0 < 256) (h1 : b1 < 256) (h2 : b2 < 256) (h3 : b3 < 256)
    (h4 : b4 < 256) (h5 : b5 < 256) (h6 : b6 < 256) (h7 : b7 < 256) :
    (bytes8 (f2 (f1 b0)) (f2 (f1 b1)) (f2 (f1 b2)) (f2 (f1 b3)) (f2 (f1 b4)) (f2 (f1 b5))
        (f2 (f1 b6)) (f2 (f1 b7)) +
      bytes8 (f2 (f1 b0)) (f2 (f1 b1)) (f2 (f1 b2)) (f2 (f1 b3)) (f2 (f1 b4)) (f2 (f1 b5))
        (f2 (f1 b6)) (f2 (f1 b7)) / 16) &&& 0x0F0F0F0F0F0F0F0F =
    bytes8 (popcount b0) (popcount b1) (popcount b2) (popcount b3) (popcount b4) (popcount b5)
      (popcount b6) (popcount b7) := by
  have q0 := byte_f2f1_bounds b0 h0
  have q1 := byte_f2f1_bounds b1 h1
  have q2 := byte_f2f1_bounds b2 h2
  have q3 := byte_f2f1_bounds b3 h3
  have q4 := byte_f2f1_bounds b4 h4
  have q5 := byte_f2f1_bounds b5 h5
  have q6 := byte_f2f1_bounds b6 h6
  have q7 := byte_f2f1_bounds b7 h7
  rw [div16_bytes8 _ _ _ _ _ _ _ _ (by omega) (by omega) (by omega) (by omega) (by omega)
    (by omega) (by omega) (by omega)]
  have hsum :
      bytes8 (f2 (f1 b0)) (f2 (f1 b1)) (f2 (f1 b2)) (f2 (f1 b3)) (f2 (f1 b4)) (f2 (f1 b5))
        (f2 (f1 b6)) (f2 (f1 b7)) +
      bytes8 (f2 (f1 b0) / 16 + 16 * (f2 (f1 b1) % 16)) (f2 (f1 b1) / 16 + 16 * (f2 (f1 b2) % 16))
        (f2 (f1 b2) / 16 + 16 * (f2 (f1 b3) % 16)) (f2 (f1 b3) / 16 + 16 * (f2 (f1 b4) % 16))
        (f2 (f1 b4) / 16 + 16 * (f2 (f1 b5) % 16)) (f2 (f1 b5) / 16 + 16 * (f2 (f1 b6) % 16))
        (f2 (f1 b6) / 16 + 16 * (f2 (f1 b7) % 16)) (f2 (f1 b7) / 16) =
      bytes8 (f2 (f1 b0) + f2 (f1 b0) / 16 + 16 * (f2 (f1 b1) % 16))
        (f2 (f1 b1) + f2 (f1 b1) / 16 + 16 * (f2 (f1 b2) % 16))
        (f2 (f1 b2) + f2 (f1 b2) / 16 + 16 * (f2 (f1 b3) % 16))
        (f2 (f1 b3) + f2 (f1 b3) / 16 + 16 * (f2 (f1 b4) % 16))
        (f2 (f1 b4) + f2 (f1 b4) / 16 + 16 * (f2 (f1 b5) % 16))
        (f2 (f1 b5) + f2 (f1 b5) / 16 + 16 * (f2 (f1 b6) % 16))
        (f2 (f1 b6) + f2 (f1 b6) / 16 + 16 * (f2 (f1 b7) % 16))
        (f2 (f1 b7) + f2 (f1 b7) / 16 + 16 * 0) := by
    unfold bytes8
    ring
  rw [hsum]
  rw [land_mask0F _ _ _ _ _ _ _ _ (by omega) (by omega) (by omega) (by omega) (by omega)
    (by omega) (by omega)]
  rw [byte_step3 b0 h0 (f2 (f1 b1) % 16) (by omega), byte_step3 b1 h1 (f2 (f1 b2) % 16) (by omega),
    byte_step3 b2 h2 (f2 (f1 b3) % 16) (by omega), byte_step3 b3 h3 (f2 (f1 b4) % 16) (by omega),
    byte_step3 b4 h4 (f2 (f1 b5) % 16) (by omega), byte_step3 b5 h5 (f2 (f1 b6) % 16) (by omega),
    byte_step3 b6 h6 (f2 (f1 b7) % 16) (by omega), byte_step3 b7 h7 0 (by omega)]

/-! ## Correctness of `lio_hweight64` -/

theorem hweight_bytes8 (b0 b1 b2 b3 b4 b5 b6 b7 : ℕ)
    (h0 : b0 < 256) (h1 : b1 < 256) (h2 : b2 < 256) (h3 : b3 < 256)
    (h4 : b4 < 256) (h5 : b5 < 256) (h6 : b6 < 256) (h7 : b7 < 256) :
    lio_hweight64 (bytes8 b0 b1 b2 b3 b4 b5 b6 b7) =
    popcount b0 + popcount b1 + popcount b2 + popcount b3 + popcount b4 + popcount b5 +
      popcount b6 + popcount b7 := by
  have hlt : bytes8 b0 b1 b2 b3 b4 b5 b6 b7 < 2 ^ 64 := by unfold bytes8; omega
  simp only [lio_hweight64]
  rw [Nat.mod_eq_of_lt hlt]
  have e1 : (bytes8 b0 b1 b2 b3 b4 b5 b6 b7 +
      (2 ^ 64 - ((bytes8 b0 b1 b2 b3 b4 b5 b6 b7 >>> 1) &&& 0x5555555555555555))) % 2 ^ 64 =
      bytes8 (f1 b0) (f1 b1) (f1 b2) (f1 b3) (f1 b4) (f1 b5) (f1 b6) (f1 b7) := by
    rw [shr1]
    have hle : (bytes8 b0 b1 b2 b3 b4 b5 b6 b7 / 2) &&& 0x5555555555555555 ≤
        bytes8 b0 b1 b2 b3 b4 b5 b6 b7 :=
      le_trans Nat.and_le_left (Nat.div_le_self _ _)
    have hsub : (bytes8 b0 b1 b2 b3 b4 b5 b6 b7 +
        (2 ^ 64 - ((bytes8 b0 b1 b2 b3 b4 b5 b6 b7 / 2) &&& 0x5555555555555555))) % 2 ^ 64 =
        bytes8 b0 b1 b2 b3 b4 b5 b6 b7 -
          ((bytes8 b0 b1 b2 b3 b4 b5 b6 b7 / 2) &&& 0x5555555555555555) := by
      omega
    rw [hsub]
    exact step1_bytes b0 b1 b2 b3 b4 b5 b6 b7 h0 h1 h2 h3 h4 h5 h6 h7
  rw [e1]
  have e2 : ((bytes8 (f1 b0) (f1 b1) (f1 b2) (f1 b3) (f1 b4) (f1 b5) (f1 b6) (f1 b7) &&&
      0x3333333333333333) +
      ((bytes8 (f1 b0) (f1 b1) (f1 b2) (f1 b3) (f1 b4) (f1 b5) (f1 b6) (f1 b7) >>> 2) &&&
      0x3333333333333333)) % 2 ^ 64 =
      bytes8 (f2 (f1 b0)) (f2 (f1 b1)) (f2 (f1 b2)) (f2 (f1 b3)) (f2 (f1 b4)) (f2 (f1 b5))
        (f2 (f1 b6)) (f2 (f1 b7)) := by
    rw [shr2]
    have u1 : bytes8 (f1 b0) (f1 b1) (f1 b2) (f1 b3) (f1 b4) (f1 b5) (f1 b6) (f1 b7) &&&
        0x3333333333333333 ≤ 0x3333333333333333 := Nat.and_le_right
    have u2 : (bytes8 (f1 b0) (f1 b1) (f1 b2) (f1 b3) (f1 b4) (f1 b5) (f1 b6) (f1 b7) / 4) &&&
        0x3333333333333333 ≤ 0x3333333333333333 := Nat.and_le_right
    rw [Nat.mod_eq_of_lt (by omega)]
    exact step2_bytes _ _ _ _ _ _ _ _
      (byte_f1_lt b0 h0).2 (byte_f1_lt b1 h1).2 (byte_f1_lt b2 h2).2 (byte_f1_lt b3 h3).2
      (byte_f1_lt b4 h4).2 (byte_f1_lt b5 h5).2 (byte_f1_lt b6 h6).2 (byte_f1_lt b7 h7).2
  rw [e2]
  have q0 := byte_f2f1_bounds b0 h0
  have q1 := byte_f2f1_bounds b1 h1
  have q2 := byte_f2f1_bounds b2 h2
  have q3 := byte_f2f1_bounds b3 h3
  have q4 := byte_f2f1_bounds b4 h4
  have q5 := byte_f2f1_bounds b5 h5
  have q6 := byte_f2f1_bounds b6 h6
  have q7 := byte_f2f1_bounds b7 h7
  have e3 : ((bytes8 (f2 (f1 b0)) (f2 (f1 b1)) (f2 (f1 b2)) (f2 (f1 b3)) (f2 (f1 b4))
      (f2 (f1 b5)) (f2 (f1 b6)) (f2 (f1 b7)) +
      (bytes8 (f2 (f1 b0)) (f2 (f1 b1)) (f2 (f1 b2)) (f2 (f1 b3)) (f2 (f1 b4)) (f2 (f1 b5))
        (f2 (f1 b6)) (f2 (f1 b7)) >>> 4)) % 2 ^ 64) &&& 0x0F0F0F0F0F0F0F0F =
      bytes8 (popcount b0) (popcount b1) (popcount b2) (popcount b3) (popcount b4) (popcount b5)
        (popcount b6) (popcount b7) := by
    rw [shr4]
    have hb3 : bytes8 (f2 (f1 b0)) (f2 (f1 b1)) (f2 (f1 b2)) (f2 (f1 b3)) (f2 (f1 b4))
        (f2 (f1 b5)) (f2 (f1 b6)) (f2 (f1 b7)) +
        bytes8 (f2 (f1 b0)) (f2 (f1 b1)) (f2 (f1 b2)) (f2 (f1 b3)) (f2 (f1 b4)) (f2 (f1 b5))
          (f2 (f1 b6)) (f2 (f1 b7)) / 16 < 2 ^ 64 := by
      unfold bytes8
      omega
    rw [Nat.mod_eq_of_lt hb3]
    exact step3_bytes b0 b1 b2 b3 b4 b5 b6 b7 h0 h1 h2 h3 h4 h5 h6 h7
  rw [e3]
  have p0 := byte_popcount_le b0 h0
  have p1 := byte_popcount_le b1 h1
  have p2 := byte_popcount_le b2 h2
  have p3 := byte_popcount_le b3 h3
  have p4 := byte_popcount_le b4 h4
  have p5 := byte_popcount_le b5 h5
  have p6 := byte_popcount_le b6 h6
  have p7 := byte_popcount_le b7 h7
  have e4 : (bytes8 (popcount b0) (popcount b1) (popcount b2) (popcount b3) (popcount b4)
      (popcount b5) (popcount b6) (popcount b7) +
      (bytes8 (popcount b0) (popcount b1) (popcount b2) (popcount b3) (popcount b4) (popcount b5)
        (popcount b6) (popcount b7) >>> 8)) % 2 ^ 64 =
      bytes8 (popcount b0 + popcount b1) (popcount b1 + popcount b2) (popcount b2 + popcount b3)
        (popcount b3 + popcount b4) (popcount b4 + popcount b5) (popcount b5 + popcount b6)
        (popcount b6 + popcount b7) (popcount b7) := by
    rw [Nat.shiftRight_eq_div_pow]
    have hb4 : bytes8 (popcount b0) (popcount b1) (popcount b2) (popcount b3) (popcount b4)
        (popcount b5) (popcount b6) (popcount b7) +
        bytes8 (popcount b0) (popcount b1) (popcount b2) (popcount b3) (popcount b4) (popcount b5)
          (popcount b6) (popcount b7) / 2 ^ 8 < 2 ^ 64 := by
      unfold bytes8
      omega
    rw [Nat.mod_eq_of_lt hb4]
    exact tail1_bytes _ _ _ _ _ _ _ _ p0 p1 p2 p3 p4 p5 p6 p7
  rw [e4]
  have e5 : (bytes8 (popcount b0 + popcount b1) (popcount b1 + popcount b2)
      (popcount b2 + popcount b3) (popcount b3 + popcount b4) (popcount b4 + popcount b5)
      (popcount b5 + popcount b6) (popcount b6 + popcount b7) (popcount b7) +
      (bytes8 (popcount b0 + popcount b1) (popcount b1 + popcount b2) (popcount b2 + popcount b3)
        (popcount b3 + popcount b4) (popcount b4 + popcount b5) (popcount b5 + popcount b6)
        (popcount b6 + popcount b7) (popcount b7) >>> 16)) % 2 ^ 64 =
      bytes8 (popcount b0 + popcount b1 + (popcount b2 + popcount b3))
        (popcount b1 + popcount b2 + (popcount b3 + popcount b4))
        (popcount b2 + popcount b3 + (popcount b4 + popcount b5))
        (popcount b3 + popcount b4 + (popcount b5 + popcount b6))
        (popcount b4 + popcount b5 + (popcount b6 + popcount b7))
        (popcount b5 + popcount b6 + popcount b7)
        (popcount b6 + popcount b7) (popcount b7) := by
    rw [Nat.shiftRight_eq_div_pow]
    have hb5 : bytes8 (popcount b0 + popcount b1) (popcount b1 + popcount b2)
        (popcount b2 + popcount b3) (popcount b3 + popcount b4) (popcount b4 + popcount b5)
        (popcount b5 + popcount b6) (popcount b6 + popcount b7) (popcount b7) +
        bytes8 (popcount b0 + popcount b1) (popcount b1 + popcount b2)
          (popcount b2 + popcount b3) (popcount b3 + popcount b4) (popcount b4 + popcount b5)
          (popcount b5 + popcount b6) (popcount b6 + popcount b7) (popcount b7) / 2 ^ 16 <
        2 ^ 64 := by
      unfold bytes8
      omega
    rw [Nat.mod_eq_of_lt hb5]
    exact tail2_bytes _ _ _ _ _ _ _ _ (by omega) (by omega) (by omega) (by omega) (by omega)
      (by omega) (by omega) (by omega)
  rw [e5]
  have e6 : ((bytes8 (popcount b0 + popcount b1 + (popcount b2 + popcount b3))
      (popcount b1 + popcount b2 + (popcount b3 + popcount b4))
      (popcount b2 + popcount b3 + (popcount b4 + popcount b5))
      (popcount b3 + popcount b4 + (popcount b5 + popcount b6))
      (popcount b4 + popcount b5 + (popcount b6 + popcount b7))
      (popcount b5 + popcount b6 + popcount b7)
      (popcount b6 + popcount b7) (popcount b7) +
      (bytes8 (popcount b0 + popcount b1 + (popcount b2 + popcount b3))
        (popcount b1 + popcount b2 + (popcount b3 + popcount b4))
        (popcount b2 + popcount b3 + (popcount b4 + popcount b5))
        (popcount b3 + popcount b4 + (popcount b5 + popcount b6))
        (popcount b4 + popcount b5 + (popcount b6 + popcount b7))
        (popcount b5 + popcount b6 + popcount b7)
        (popcount b6 + popcount b7) (popcount b7) >>> 32)) % 2 ^ 64) &&& 0x00000000000000FF =
      popcount b0 + popcount b1 + (popcount b2 + popcount b3) +
        (popcount b4 + popcount b5 + (popcount b6 + popcount b7)) := by
    rw [Nat.shiftRight_eq_div_pow, land_255]
    have hb6 : bytes8 (popcount b0 + popcount b1 + (popcount b2 + popcount b3))
        (popcount b1 + popcount b2 + (popcount b3 + popcount b4))
        (popcount b2 + popcount b3 + (popcount b4 + popcount b5))
        (popcount b3 + popcount b4 + (popcount b5 + popcount b6))
        (popcount b4 + popcount b5 + (popcount b6 + popcount b7))
        (popcount b5 + popcount b6 + popcount b7)
        (popcount b6 + popcount b7) (popcount b7) +
        bytes8 (popcount b0 + popcount b1 + (popcount b2 + popcount b3))
          (popcount b1 + popcount b2 + (popcount b3 + popcount b4))
          (popcount b2 + popcount b3 + (popcount b4 + popcount b5))
          (popcount b3 + popcount b4 + (popcount b5 + popcount b6))
          (popcount b4 + popcount b5 + (popcount b6 + popcount b7))
          (popcount b5 + popcount b6 + popcount b7)
          (popcount b6 + popcount b7) (popcount b7) / 2 ^ 32 < 2 ^ 64 := by
      unfold bytes8
      omega
    rw [Nat.mod_eq_of_lt hb6]
    exact tail3_bytes _ _ _ _ _ _ _ _ (by omega) (by omega) (by omega) (by omega) (by omega)
      (by omega) (by omega) (by omega)
  rw [e6]
  omega

theorem popcount_bytes8 (b0 b1 b2 b3 b4 b5 b6 b7 : ℕ)
    (h0 : b0 < 256) (h1 : b1 < 256) (h2 : b2 < 256) (h3 : b3 < 256)
    (h4 : b4 < 256) (h5 : b5 < 256) (h6 : b6 < 256) :
    popcount (bytes8 b0 b1 b2 b3 b4 b5 b6 b7) =
    popcount b0 + popcount b1 + popcount b2 + popcount b3 + popcount b4 + popcount b5 +
      popcount b6 + popcount b7 := by
  unfold bytes8
  have h8 : (256 : ℕ) = 2 ^ 8 := by norm_num
  rw [h8]
  rw [popcount_add_pow_mul 8 b0 _ (by omega), popcount_add_pow_mul 8 b1 _ (by omega),
    popcount_add_pow_mul 8 b2 _ (by omega), popcount_add_pow_mul 8 b3 _ (by omega),
    popcount_add_pow_mul 8 b4 _ (by omega), popcount_add_pow_mul 8 b5 _ (by omega),
    popcount_add_pow_mul 8 b6 _ (by omega)]
  omega

/-- `lio_hweight64` computes the population count of every 64-bit word. -/
theorem lio_hweight64_eq_popcount (w : ℕ) (hw : w < 2 ^ 64) :
    lio_hweight64 w = popcount w := by
  have hb : w = bytes8 (w % 256) (w / 2 ^ 8 % 256) (w / 2 ^ 16 % 256) (w / 2 ^ 24 % 256)
      (w / 2 ^ 32 % 256) (w / 2 ^ 40 % 256) (w / 2 ^ 48 % 256) (w / 2 ^ 56) := by
    unfold bytes8
    omega
  rw [hb]
  rw [hweight_bytes8 _ _ _ _ _ _ _ _ (by omega) (by omega) (by omega) (by omega) (by omega)
    (by omega) (by omega) (by omega)]
  rw [popcount_bytes8 _ _ _ _ _ _ _ _ (by omega) (by omega) (by omega) (by omega) (by omega)
    (by omega) (by omega)]

/-! ## Link update and link polling -/

/-- `lio_dev_link_update` always publishes the snapshot derived by the fixed
lookup from the cached packed link-status word. -/
theorem link_update_publishes (dev : LioDevice) (eth : EthDev) :
    (lio_dev_link_update dev eth).2.dev_link = publishedLinkOf dev.linfo.link_status64 := by
  unfold lio_dev_link_update publishedLinkOf lio_dev_atomic_write_link_status
  split_ifs <;>
    simp_all [ETH_LINK_DOWN, ETH_LINK_UP, ETH_SPEED_NUM_NONE, ETH_SPEED_NUM_10G,
      ETH_LINK_HALF_DUPLEX, ETH_LINK_FULL_DUPLEX]

/-- Claim C7: when the device reports link up, `lio_dev_link_update`
publishes link-up with full duplex and maps device speed code 10000 to
10 Gbps; every unrecognized speed code is published as speed unknown
(`ETH_SPEED_NUM_NONE`) with half duplex; when the device reports link down,
the published link is down with speed none and half duplex. -/
theorem c7_speed_mapping (dev : LioDevice) (eth : EthDev) :
    (s_link_up dev.linfo.link_status64 ≠ 0 →
      s_speed dev.linfo.link_status64 = LIO_LINK_SPEED_10000 →
      (lio_dev_link_update dev eth).2.dev_link =
        { link_speed := ETH_SPEED_NUM_10G, link_duplex := ETH_LINK_FULL_DUPLEX,
          link_status := ETH_LINK_UP }) ∧
    (s_link_up dev.linfo.link_status64 ≠ 0 →
      s_speed dev.linfo.link_status64 ≠ LIO_LINK_SPEED_10000 →
      (lio_dev_link_update dev eth).2.dev_link =
        { link_speed := ETH_SPEED_NUM_NONE, link_duplex := ETH_LINK_HALF_DUPLEX,
          link_status := ETH_LINK_UP }) ∧
    (s_link_up dev.linfo.link_status64 = 0 →
      (lio_dev_link_update dev eth).2.dev_link =
        { link_speed := ETH_SPEED_NUM_NONE, link_duplex := ETH_LINK_HALF_DUPLEX,
          link_status := ETH_LINK_DOWN }) := by
  refine ⟨fun hu hs => ?_, fun hu hs => ?_, fun hd => ?_⟩ <;>
    rw [link_update_publishes] <;> unfold publishedLinkOf <;> simp_all

/-- Claim C7 witness: concrete device states exercising all three cases. -/
theorem c7_witness :
    (s_link_up upDev.linfo.link_status64 ≠ 0 ∧
      s_speed upDev.linfo.link_status64 = LIO_LINK_SPEED_10000 ∧
      (lio_dev_link_update upDev baseEth).2.dev_link =
        { link_speed := ETH_SPEED_NUM_10G, link_duplex := ETH_LINK_FULL_DUPLEX,
          link_status := ETH_LINK_UP }) ∧
    (s_speed oddDev.linfo.link_status64 ≠ LIO_LINK_SPEED_10000 ∧
      (lio_dev_link_update oddDev baseEth).2.dev_link =
        { link_speed := ETH_SPEED_NUM_NONE, link_duplex := ETH_LINK_HALF_DUPLEX,
          link_status := ETH_LINK_UP }) ∧
    (s_link_up baseDev.linfo.link_status64 = 0 ∧
      (lio_dev_link_update baseDev baseEth).2.dev_link =
        { link_speed := ETH_SPEED_NUM_NONE, link_duplex := ETH_LINK_HALF_DUPLEX,
          link_status := ETH_LINK_DOWN }) :=
  ⟨⟨by decide, by decide,
      (c7_speed_mapping upDev baseEth).1 (by decide) (by decide)⟩,
    ⟨by decide,
      (c7_speed_mapping oddDev baseEth).2.1 (by decide) (by decide)⟩,
    ⟨by decide,
      (c7_speed_mapping baseDev baseEth).2.2 (by decide)⟩⟩

/-- Claim C9: whenever the reported link is down (and the publish, which in
the sequential model always succeeds, has just written the down status),
`lio_dev_link_update` returns -1 — the comparison is made against the
zero-initialised local `old`, not the previously published link — and it
returns 0 exactly when the link is up. -/
theorem c9_down_no_change_code (dev : LioDevice) (eth : EthDev) :
    (s_link_up dev.linfo.link_status64 = 0 →
      (lio_dev_link_update dev eth).1 = -1 ∧
      (lio_dev_link_update dev eth).2.dev_link.link_status = ETH_LINK_DOWN) ∧
    ((lio_dev_link_update dev eth).1 = 0 ↔ s_link_up dev.linfo.link_status64 ≠ 0) := by
  unfold lio_dev_link_update lio_dev_atomic_write_link_status
  split_ifs with h <;>
    simp_all [ETH_LINK_DOWN, ETH_LINK_UP, ETH_SPEED_NUM_NONE, ETH_SPEED_NUM_10G,
      ETH_LINK_HALF_DUPLEX, ETH_LINK_FULL_DUPLEX]

/-- Claim C9 witness: a link-down device yields -1 even though the down
status was published; a link-up device yields 0. -/
theorem c9_witness :
    (s_link_up baseDev.linfo.link_status64 = 0 ∧
      (lio_dev_link_update baseDev baseEth).1 = -1 ∧
      (lio_dev_link_update baseDev baseEth).2.dev_link.link_status = ETH_LINK_DOWN) ∧
    (s_link_up upDev.linfo.link_status64 ≠ 0 ∧ (lio_dev_link_update upDev baseEth).1 = 0) :=
  ⟨⟨by decide, (c9_down_no_change_code baseDev baseEth).1 (by decide)⟩,
    ⟨by decide, (c9_down_no_change_code upDev baseEth).2.mpr (by decide)⟩⟩

/-- Claim C5: after a successful link-status poll, the cached packed word and
the published snapshot are updated if and only if the byte-swapped response
word differs from the cached word; when they are equal both are left exactly
unchanged. -/
theorem c5_link_cache_update (env : LinkEnv) (eth : EthDev) (dev : LioDevice)
    (ho : dev.intf_open = true) (ha : env.sc_alloc_ok = true) (hs : env.send_ok = true)
    (hr : env.resp_arrives = true) (h0 : env.resp_status % 2 ^ 64 = 0) :
    (dev.linfo.link_status64 = swap8B env.link64 →
      lio_dev_get_link_status env eth dev = (dev, eth)) ∧
    (dev.linfo.link_status64 ≠ swap8B env.link64 →
      (lio_dev_get_link_status env eth dev).1.linfo.link_status64 = swap8B env.link64 ∧
      (lio_dev_get_link_status env eth dev).2.dev_link =
        publishedLinkOf (swap8B env.link64)) := by
  have h0n : env.resp_status % 18446744073709551616 = 0 := by
    rw [show (18446744073709551616 : ℕ) = 2 ^ 64 by norm_num]
    exact h0
  constructor
  · intro heq
    simp [lio_dev_get_link_status, pollStatus, ho, ha, hs, hr, h0n, heq]
  · intro hne
    have hstep : lio_dev_get_link_status env eth dev =
        ({ dev with linfo := { dev.linfo with link_status64 := swap8B env.link64 } },
          (lio_dev_link_update
            { dev with linfo := { dev.linfo with link_status64 := swap8B env.link64 } } eth).2) := by
      simp [lio_dev_get_link_status, pollStatus, ho, ha, hs, hr, h0n, hne]
    rw [hstep]
    exact ⟨rfl, by rw [link_update_publishes]⟩

/-- Claim C5 witness: with a cached zero word, a response swapping to
`upLinkWord` updates cache and snapshot; a response swapping to zero leaves
both unchanged. -/
theorem c5_witness :
    (openDev.intf_open = true ∧ linkEnvSame.resp_status % 2 ^ 64 = 0 ∧
      openDev.linfo.link_status64 = swap8B linkEnvSame.link64 ∧
      lio_dev_get_link_status linkEnvSame baseEth openDev = (openDev, baseEth)) ∧
    (openDev.linfo.link_status64 ≠ swap8B linkEnvDiff.link64 ∧
      (lio_dev_get_link_status linkEnvDiff baseEth openDev).1.linfo.link_status64 =
        swap8B linkEnvDiff.link64 ∧
      (lio_dev_get_link_status linkEnvDiff baseEth openDev).2.dev_link =
        publishedLinkOf (swap8B linkEnvDiff.link64)) :=
  ⟨⟨rfl, rfl, by decide,
      (c5_link_cache_update linkEnvSame baseEth openDev rfl rfl rfl rfl rfl).1 (by decide)⟩,
    ⟨by decide,
      (c5_link_cache_update linkEnvDiff baseEth openDev rfl rfl rfl rfl rfl).2 (by decide)⟩⟩

/-- Claim C6: if the soft-command submit fails or the completion word is
never set within the poll budget, `lio_dev_get_link_status` (a `void`
function: it can surface no error) leaves the cached word and the published
snapshot — indeed the whole device and eth_dev state — unchanged. -/
theorem c6_failed_tick_unchanged (env : LinkEnv) (eth : EthDev) (dev : LioDevice)
    (h : env.send_ok = false ∨ env.resp_arrives = false) :
    lio_dev_get_link_status env eth dev = (dev, eth) := by
  unfold lio_dev_get_link_status
  split_ifs <;> first
    | rfl
    | (exfalso; rcases h with h | h <;> simp_all [pollStatus, LIO_COMPLETION_WORD_INIT])

/-- Claim C6 witness: submit failure and timeout both leave the state
unchanged. -/
theorem c6_witness :
    (linkEnvSendFail.send_ok = false ∧
      lio_dev_get_link_status linkEnvSendFail baseEth openDev = (openDev, baseEth)) ∧
    (linkEnvTimeout.resp_arrives = false ∧
      lio_dev_get_link_status linkEnvTimeout baseEth openDev = (openDev, baseEth)) :=
  ⟨⟨rfl, c6_failed_tick_unchanged linkEnvSendFail baseEth openDev (Or.inl rfl)⟩,
    ⟨rfl, c6_failed_tick_unchanged linkEnvTimeout baseEth openDev (Or.inr rfl)⟩⟩

/-! ## Configuration (`lio_dev_configure`) -/

/-- Claim C1: once configuration has completed, a second `lio_dev_configure`
call with the same requested RX/TX queue counts returns 0 as a no-op leaving
all state unchanged, and a second call with different queue counts is
rejected with `-ENOTSUP`, also leaving all state unchanged. -/
theorem c1_reconfigure_gate (env : CfgEnv) (eth : EthDev) (dev : LioDevice)
    (hc : dev.port_configured = true) :
    (dev.nb_rx_queues = eth.nb_rx_queues ∧ dev.nb_tx_queues = eth.nb_tx_queues →
      lio_dev_configure env eth dev =
        { ret := 0, dev := dev, eth := eth, sc_outstanding := false, iq0_freed := false }) ∧
    (dev.nb_rx_queues ≠ eth.nb_rx_queues ∨ dev.nb_tx_queues ≠ eth.nb_tx_queues →
      lio_dev_configure env eth dev =
        { ret := -ENOTSUP, dev := dev, eth := eth, sc_outstanding := false,
          iq0_freed := false }) := by
  constructor
  · intro h
    simp [lio_dev_configure, hc, h.1, h.2]
  · intro h
    rcases h with h | h <;> simp [lio_dev_configure, hc, h]

/-- Claim C1 witness: a device configured with 4/4 queues accepts a second
4/4 request as a no-op and rejects a 2/2 request with `-ENOTSUP`. -/
theorem c1_witness :
    cfgdDev.port_configured = true ∧
    lio_dev_configure cfgEnvOk baseEth cfgdDev =
      { ret := 0, dev := cfgdDev, eth := baseEth, sc_outstanding := false, iq0_freed := false } ∧
    lio_dev_configure cfgEnvOk smallEth cfgdDev =
      { ret := -ENOTSUP, dev := cfgdDev, eth := smallEth, sc_outstanding := false,
        iq0_freed := false } :=
  ⟨rfl,
    (c1_reconfigure_gate cfgEnvOk baseEth cfgdDev rfl).1 ⟨rfl, rfl⟩,
    (c1_reconfigure_gate cfgEnvOk smallEth cfgdDev rfl).2 (Or.inl (by decide))⟩

/-- Claim C2: if the interface-configuration response carries an input- or
output-queue bitmask with population count zero, configuration fails with
`-ENODEV` (the `nic_config_fail` outcome) and `port_configured` is never
set. -/
theorem c2_empty_mask_fails (env : CfgEnv) (eth : EthDev) (dev : LioDevice)
    (hc : dev.port_configured = false) (ha : env.sc_alloc_ok = true) (hs : env.send_ok = true)
    (hr : env.resp_arrives = true) (h0 : env.resp_status % 2 ^ 64 = 0)
    (hm : lio_hweight64 (swap8B env.iqmask) = 0 ∨ lio_hweight64 (swap8B env.oqmask) = 0) :
    (lio_dev_configure env eth dev).ret = -ENODEV ∧
    (lio_dev_configure env eth dev).dev.port_configured = false := by
  have h0n : env.resp_status % 18446744073709551616 = 0 := by
    rw [show (18446744073709551616 : ℕ) = 2 ^ 64 by norm_num]
    exact h0
  have hstep : lio_dev_configure env eth dev =
      { ret := -ENODEV,
        dev := { dev with nb_rx_queues := eth.nb_rx_queues, nb_tx_queues := eth.nb_tx_queues },
        eth := eth, sc_outstanding := false, iq0_freed := true } := by
    rcases hm with hm | hm <;>
      simp [lio_dev_configure, pollStatus, hc, ha, hs, hr, h0n, hm]
  rw [hstep]
  exact ⟨rfl, hc⟩

/-- Claim C2 witness: with an empty granted input-queue mask the call returns
`-ENODEV` and leaves the port unconfigured. -/
theorem c2_witness :
    baseDev.port_configured = false ∧
    lio_hweight64 (swap8B cfgEnvBadMask.iqmask) = 0 ∧
    (lio_dev_configure cfgEnvBadMask baseEth baseDev).ret = -ENODEV ∧
    (lio_dev_configure cfgEnvBadMask baseEth baseDev).dev.port_configured = false :=
  ⟨rfl, by decide,
    (c2_empty_mask_fails cfgEnvBadMask baseEth baseDev rfl rfl rfl rfl rfl
      (Or.inl (by decide))).1,
    (c2_empty_mask_fails cfgEnvBadMask baseEth baseDev rfl rfl rfl rfl rfl
      (Or.inl (by decide))).2⟩

/-- Claim C3 counterexample: an attempt in which everything succeeds until
the `glist_lock` allocation fails is a failing path of `lio_dev_configure`
that returns `-ENOMEM` (not the synthetic `-ENODEV` configuration-failed
code), leaves the soft command allocated by this attempt outstanding, and
does not free bootstrap instruction queue 0 — refuting the claim that every
failing path releases the soft command and instruction queue 0 and reports
the single configuration-failed error. -/
theorem c3_counterexample :
    (lio_dev_configure cfgEnvLockFail baseEth baseDev).ret = -ENOMEM ∧
    (lio_dev_configure cfgEnvLockFail baseEth baseDev).ret ≠ -ENODEV ∧
    (lio_dev_configure cfgEnvLockFail baseEth baseDev).sc_outstanding = true ∧
    (lio_dev_configure cfgEnvLockFail baseEth baseDev).iq0_freed = false := by
  refine ⟨?_, ?_, ?_, ?_⟩ <;> decide

/-- Claim C3 (amended): every failing path of `lio_dev_configure` leaves
`port_configured` 0.  The paths that reach the `nic_config_fail` label (send
failure; completion timeout or nonzero response status; empty granted queue
mask) free the soft command, free bootstrap instruction queue 0 and return
`-ENODEV`.  But the allocation failures return `-ENOMEM` directly: the soft
command allocation failure frees nothing (nothing else was allocated); the
`glist_lock` allocation failure frees neither the soft command nor
instruction queue 0; the `glist_head` allocation failure additionally frees
only the `glist_lock` array, leaving the soft command outstanding and
instruction queue 0 in place. -/
theorem c3_failure_paths (env : CfgEnv) (eth : EthDev) (dev : LioDevice)
    (hc : dev.port_configured = false) :
    ((lio_dev_configure env eth dev).ret ≠ 0 →
      (lio_dev_configure env eth dev).dev.port_configured = false) ∧
    (env.sc_alloc_ok = false →
      (lio_dev_configure env eth dev).ret = -ENOMEM ∧
      (lio_dev_configure env eth dev).sc_outstanding = false ∧
      (lio_dev_configure env eth dev).iq0_freed = false) ∧
    (env.sc_alloc_ok = true → env.send_ok = false →
      (lio_dev_configure env eth dev).ret = -ENODEV ∧
      (lio_dev_configure env eth dev).sc_outstanding = false ∧
      (lio_dev_configure env eth dev).iq0_freed = true) ∧
    (env.sc_alloc_ok = true → env.send_ok = true →
      pollStatus env.resp_arrives env.resp_status ≠ 0 →
      (lio_dev_configure env eth dev).ret = -ENODEV ∧
      (lio_dev_configure env eth dev).sc_outstanding = false ∧
      (lio_dev_configure env eth dev).iq0_freed = true) ∧
    (env.sc_alloc_ok = true → env.send_ok = true →
      pollStatus env.resp_arrives env.resp_status = 0 →
      (lio_hweight64 (swap8B env.iqmask) = 0 ∨ lio_hweight64 (swap8B env.oqmask) = 0) →
      (lio_dev_configure env eth dev).ret = -ENODEV ∧
      (lio_dev_configure env eth dev).sc_outstanding = false ∧
      (lio_dev_configure env eth dev).iq0_freed = true) ∧
    (env.sc_alloc_ok = true → env.send_ok = true →
      pollStatus env.resp_arrives env.resp_status = 0 →
      lio_hweight64 (swap8B env.iqmask) ≠ 0 → lio_hweight64 (swap8B env.oqmask) ≠ 0 →
      env.glist_lock_ok = false →
      (lio_dev_configure env eth dev).ret = -ENOMEM ∧
      (lio_dev_configure env eth dev).sc_outstanding = true ∧
      (lio_dev_configure env eth dev).iq0_freed = false) ∧
    (env.sc_alloc_ok = true → env.send_ok = true →
      pollStatus env.resp_arrives env.resp_status = 0 →
      lio_hweight64 (swap8B env.iqmask) ≠ 0 → lio_hweight64 (swap8B env.oqmask) ≠ 0 →
      env.glist_lock_ok = true → env.glist_head_ok = false →
      (lio_dev_configure env eth dev).ret = -ENOMEM ∧
      (lio_dev_configure env eth dev).sc_outstanding = true ∧
      (lio_dev_configure env eth dev).iq0_freed = false ∧
      (lio_dev_configure env eth dev).dev.glist_lock = none) := by
  unfold lio_dev_configure
  simp only [hc, Bool.false_eq_true, if_false]
  split_ifs with h1 h2 h3 h4 h5 h6 <;>
    simp_all [ENOMEM, ENODEV, ENOTSUP]
  constructor
  · intro hA hB
    rcases h4 with h | h
    · exact absurd h hA
    · exact absurd h hB
  · intro hA hB
    rcases h4 with h | h
    · exact absurd h hA
    · exact absurd h hB

/-- Claim C3 witness for the amended statement, at the counterexample
environment. -/
theorem c3_witness :
    baseDev.port_configured = false ∧
    (cfgEnvLockFail.glist_lock_ok = false ∧
      (lio_dev_configure cfgEnvLockFail baseEth baseDev).ret = -ENOMEM ∧
      (lio_dev_configure cfgEnvLockFail baseEth baseDev).sc_outstanding = true ∧
      (lio_dev_configure cfgEnvLockFail baseEth baseDev).iq0_freed = false) :=
  ⟨rfl,
    ⟨rfl,
      (c3_failure_paths cfgEnvLockFail baseEth baseDev rfl).2.2.2.2.2.1 rfl rfl rfl
        (by decide) (by decide) rfl⟩⟩

/-! ## `lio_hweight64` and granted-queue sizing (C4) -/

/-- Claim C4: `lio_hweight64 w` is the number of set bits of `w` for every
64-bit word, and on a successful configuration `lio_dev_configure` sizes the
per-queue bookkeeping arrays (`glist_lock`, `glist_head`) to the granted
input-queue count `lio_hweight64` of the (byte-swapped) returned mask — not
to the requested count. -/
theorem c4_hweight_and_sizing :
    (∀ w : ℕ, w < 2 ^ 64 → lio_hweight64 w = popcount w) ∧
    (∀ (env : CfgEnv) (eth : EthDev) (dev : LioDevice),
      dev.port_configured = false → env.sc_alloc_ok = true → env.send_ok = true →
      pollStatus env.resp_arrives env.resp_status = 0 →
      lio_hweight64 (swap8B env.iqmask) ≠ 0 → lio_hweight64 (swap8B env.oqmask) ≠ 0 →
      env.glist_lock_ok = true → env.glist_head_ok = true →
      (lio_dev_configure env eth dev).dev.glist_lock =
        some (lio_hweight64 (swap8B env.iqmask)) ∧
      (lio_dev_configure env eth dev).dev.glist_head =
        some (lio_hweight64 (swap8B env.iqmask))) := by
  constructor
  · exact lio_hweight64_eq_popcount
  · intro env eth dev hc ha hs hp hi ho hl hh
    simp [lio_dev_configure, hc, ha, hs, hp, hi, ho, hl, hh]

/-- Claim C4 witness: `lio_hweight64` agrees with the popcount on 5
(= `0b101`, two set bits), and a configuration attempt requesting 4 input
queues but granted mask `0b101` allocates bookkeeping sized 2, not 4. -/
theorem c4_witness :
    (5 : ℕ) < 2 ^ 64 ∧
    lio_hweight64 5 = popcount 5 ∧
    lio_hweight64 5 = 2 ∧
    baseEth.nb_tx_queues = 4 ∧
    swap8B cfgEnvGrant2.iqmask = 5 ∧
    (lio_dev_configure cfgEnvGrant2 baseEth baseDev).dev.glist_lock = some 2 ∧
    (lio_dev_configure cfgEnvGrant2 baseEth baseDev).dev.glist_head = some 2 :=
  ⟨by decide,
    c4_hweight_and_sizing.1 5 (by decide),
    by decide, rfl, by decide,
    ((c4_hweight_and_sizing.2 cfgEnvGrant2 baseEth baseDev rfl rfl rfl rfl
      (by decide) (by decide) rfl rfl).1).trans (by decide),
    ((c4_hweight_and_sizing.2 cfgEnvGrant2 baseEth baseDev rfl rfl rfl rfl
      (by decide) (by decide) rfl rfl).2).trans (by decide)⟩

/-! ## Control-command submission (C8) and queue-setup bounds (C10) -/

/-- Claim C8: if (after the pre-emptive flush of line 74) the enqueue fails,
the channel flushes once and retries the enqueue exactly once — two attempts,
one in-submit flush — reports `SubmitFailed` exactly when the retry also
fails, and only then does `lio_send_rx_ctrl_cmd` report the submission
failure by returning -1. -/
theorem c8_flush_retry_once (env : CtrlEnv) (q : IQ)
    (hfull : tryEnqueue (lio_flush_iq env.pre_flush_gain q) = none) :
    (lio_send_ctrl_pkt env.submit_flush_gain (lio_flush_iq env.pre_flush_gain q)).attempts = 2 ∧
    (lio_send_ctrl_pkt env.submit_flush_gain (lio_flush_iq env.pre_flush_gain q)).flushes = 1 ∧
    ((lio_send_ctrl_pkt env.submit_flush_gain (lio_flush_iq env.pre_flush_gain q)).failed = true ↔
      tryEnqueue (lio_flush_iq env.submit_flush_gain (lio_flush_iq env.pre_flush_gain q)) =
        none) ∧
    ((lio_send_ctrl_pkt env.submit_flush_gain (lio_flush_iq env.pre_flush_gain q)).failed = true →
      (lio_send_rx_ctrl_cmd env q).1 = -1) := by
  unfold lio_send_rx_ctrl_cmd lio_send_ctrl_pkt
  rw [hfull]
  cases h2 : tryEnqueue (lio_flush_iq env.submit_flush_gain (lio_flush_iq env.pre_flush_gain q))
    with
  | none => simp [hfull, h2]
  | some q3 => simp [hfull, h2]

/-- Claim C8 witness: a stuck one-slot queue forces the single flush-and-retry
and the -1 result. -/
theorem c8_witness :
    tryEnqueue (lio_flush_iq ctrlEnvStuck.pre_flush_gain fullIQ) = none ∧
    (lio_send_ctrl_pkt ctrlEnvStuck.submit_flush_gain
      (lio_flush_iq ctrlEnvStuck.pre_flush_gain fullIQ)).attempts = 2 ∧
    (lio_send_ctrl_pkt ctrlEnvStuck.submit_flush_gain
      (lio_flush_iq ctrlEnvStuck.pre_flush_gain fullIQ)).flushes = 1 ∧
    (lio_send_rx_ctrl_cmd ctrlEnvStuck fullIQ).1 = -1 :=
  ⟨by decide,
    (c8_flush_retry_once ctrlEnvStuck fullIQ (by decide)).1,
    (c8_flush_retry_once ctrlEnvStuck fullIQ (by decide)).2.1,
    (c8_flush_retry_once ctrlEnvStuck fullIQ (by decide)).2.2.2 (by decide)⟩

/-- Claim C10: for every queue index at or beyond the configured RX
(respectively TX) queue count, `lio_dev_rx_queue_setup` (respectively
`lio_dev_tx_queue_setup`) returns `-EINVAL` and performs no allocation and no
modification of any queue state. -/
theorem c10_queue_setup_bounds (renv : RxqEnv) (tenv : TxqEnv) (eth : EthDev)
    (dev : LioDevice) (q_no nrx ntx : ℕ) :
    (dev.nb_rx_queues ≤ q_no →
      lio_dev_rx_queue_setup renv eth dev q_no nrx = (-EINVAL, dev, eth)) ∧
    (dev.nb_tx_queues ≤ q_no →
      lio_dev_tx_queue_setup tenv eth dev q_no ntx = (-EINVAL, dev, eth)) := by
  constructor <;> intro h <;>
    simp [lio_dev_rx_queue_setup, lio_dev_tx_queue_setup, h]

/-- Claim C10 witness: on a device configured with zero queues, queue index 0
is already out of range for both directions. -/
theorem c10_witness :
    baseDev.nb_rx_queues ≤ 0 ∧ baseDev.nb_tx_queues ≤ 0 ∧
    lio_dev_rx_queue_setup { setup_droq_ok := true } baseEth baseDev 0 128 =
      (-EINVAL, baseDev, baseEth) ∧
    lio_dev_tx_queue_setup { setup_iq_res := 0, setup_sgl_res := 0 } baseEth baseDev 0 128 =
      (-EINVAL, baseDev, baseEth) :=
  ⟨by decide, by decide,
    (c10_queue_setup_bounds { setup_droq_ok := true } { setup_iq_res := 0, setup_sgl_res := 0 }
      baseEth baseDev 0 128 128).1 (by decide),
    (c10_queue_setup_bounds { setup_droq_ok := true } { setup_iq_res := 0, setup_sgl_res := 0 }
      baseEth baseDev 0 128 128).2 (by decide)⟩

end LioEthdev
